import Mathlib

/-!
Verification development for the LuxStyle booking application (`src/app.py`).

The Flask routes are shallowly embedded as pure Lean functions over an
explicit database state (`DB`) and session state (`Session`).  A route that
in Python ends in `redirect(...)`/`flash(...)` is modelled as returning an
outcome constructor together with the (possibly updated) database; an
uncaught Python exception (e.g. `int()` raising `ValueError`) is modelled as
the `serverError` outcome with the database unchanged (no commit happens).

Library calls are modelled at their contract level:
* `werkzeug.security.generate_password_hash` / `check_password_hash` are
  modelled by tagging the password; `check` succeeds exactly when the
  password matches the one that was hashed.
* `datetime.strptime(s, "%Y-%m-%d %H:%M")` is modelled by `parse_ymd_hm`,
  following CPython's `_strptime` regexes: `%Y` is exactly four digits,
  `%m`/`%d`/`%H`/`%M` are one or two digits, the numeric ranges are checked,
  trailing characters are rejected, and the `datetime` constructor's
  calendar validation (day within month, year at least 1) is applied.
  Sub-minute precision of `datetime.now()` is not modelled; `now` below
  ranges over whole-second instants with `second` kept so that comparisons
  against parsed values (whose seconds are 0) behave as in Python.
* SQLAlchemy's `Query.get` on an `Integer` primary key receiving a form
  string is modelled by decimal coercion of the string followed by lookup
  (a non-numeric string matches no row).
* autoincrement primary keys are modelled by per-table counters in `DB`.
* Python `int(...)` / `float(...)` are modelled by `pyInt?` / `pyFloat?` for
  plain decimal literals (underscores, exponents, `inf`/`nan` not modelled).
-/

/-- A wall-clock instant at second precision (Python `datetime` with
`microsecond` dropped; values produced by `parse_ymd_hm` have `second = 0`). -/
structure DateTime where
  year : Nat
  month : Nat
  day : Nat
  hour : Nat
  minute : Nat
  second : Nat
deriving DecidableEq, Repr

/-- Python `datetime` comparison: lexicographic on the components. -/
def DateTime.lt (a b : DateTime) : Bool :=
  if a.year < b.year then true else if b.year < a.year then false
  else if a.month < b.month then true else if b.month < a.month then false
  else if a.day < b.day then true else if b.day < a.day then false
  else if a.hour < b.hour then true else if b.hour < a.hour then false
  else if a.minute < b.minute then true else if b.minute < a.minute then false
  else decide (a.second < b.second)

/-- Model of Python `str.strip()`: drop leading and trailing whitespace. -/
def strip (s : String) : String :=
  ⟨((s.toList.dropWhile Char.isWhitespace).reverse.dropWhile
      Char.isWhitespace).reverse⟩

/-- Gregorian leap year, as used by Python's `datetime` constructor. -/
def isLeapYear (y : Nat) : Bool :=
  y % 4 == 0 && (y % 100 != 0 || y % 400 == 0)

/-- Number of days in a month, as validated by Python's `datetime`. -/
def daysInMonth (y m : Nat) : Nat :=
  if m == 2 then (if isLeapYear y then 29 else 28)
  else if m == 4 || m == 6 || m == 9 || m == 11 then 30
  else 31

/-- Decimal value of a digit string. -/
def digitsVal (cs : List Char) : Nat :=
  cs.foldl (fun acc c => acc * 10 + (c.toNat - 48)) 0

/-- Model of `datetime.strptime(s, "%Y-%m-%d %H:%M")` (see module comment). -/
def parse_ymd_hm (s : String) : Option DateTime :=
  let cs := s.toList
  let (yds, r1) := cs.span Char.isDigit
  if yds.length ≠ 4 then none else
  match r1 with
  | '-' :: r2 =>
    let (mds, r3) := r2.span Char.isDigit
    if mds.length = 0 ∨ mds.length > 2 then none else
    let m := digitsVal mds
    if m < 1 ∨ m > 12 then none else
    match r3 with
    | '-' :: r4 =>
      let (dds, r5) := r4.span Char.isDigit
      if dds.length = 0 ∨ dds.length > 2 then none else
      let d := digitsVal dds
      if d < 1 ∨ d > 31 then none else
      match r5 with
      | ' ' :: r6 =>
        let (hds, r7) := r6.span Char.isDigit
        if hds.length = 0 ∨ hds.length > 2 then none else
        let h := digitsVal hds
        if h > 23 then none else
        match r7 with
        | ':' :: r8 =>
          let (mids, r9) := r8.span Char.isDigit
          if mids.length = 0 ∨ mids.length > 2 then none else
          let mi := digitsVal mids
          if mi > 59 then none else
          if r9 ≠ [] then none else
          let y := digitsVal yds
          if y < 1 then none else
          if d > daysInMonth y m then none else
          some ⟨y, m, d, h, mi, 0⟩
        | _ => none
      | _ => none
    | _ => none
  | _ => none

/-- Model of `werkzeug.security.generate_password_hash`. -/
def generate_password_hash (p : String) : String := "pbkdf2$" ++ p

/-- Model of `werkzeug.security.check_password_hash`: succeeds exactly when
`p` is the password that produced the stored hash. -/
def check_password_hash (h p : String) : Bool := h == "pbkdf2$" ++ p

/-- Result of Python `float(...)` on a plain decimal literal: the value is
`mantissa / 10 ^ scale`. -/
structure PyFloat where
  mantissa : Int
  scale : Nat
deriving DecidableEq, Repr

/-- Unsigned part of a decimal literal: digits, optionally with one dot. -/
def parseUnsignedDecimal (cs : List Char) : Option (Nat × Nat) :=
  let (ip, r1) := cs.span Char.isDigit
  match r1 with
  | [] => if ip.isEmpty then none else some (digitsVal ip, 0)
  | '.' :: r2 =>
    let (fp, r3) := r2.span Char.isDigit
    if ¬ r3.isEmpty then none
    else if ip.isEmpty ∧ fp.isEmpty then none
    else some (digitsVal ip * 10 ^ fp.length + digitsVal fp, fp.length)
  | _ => none

/-- Model of Python `float(s)` for plain decimal literals. -/
def pyFloat? (s : String) : Option PyFloat :=
  match (strip s).toList with
  | '+' :: rest => (parseUnsignedDecimal rest).map fun p => ⟨(p.1 : Int), p.2⟩
  | '-' :: rest => (parseUnsignedDecimal rest).map fun p => ⟨-(p.1 : Int), p.2⟩
  | cs => (parseUnsignedDecimal cs).map fun p => ⟨(p.1 : Int), p.2⟩

/-- Model of Python `int(s)` for plain decimal literals. -/
def pyInt? (s : String) : Option Int :=
  match (strip s).toList with
  | '+' :: rest =>
    if ¬ rest.isEmpty ∧ rest.all Char.isDigit then some (digitsVal rest) else none
  | '-' :: rest =>
    if ¬ rest.isEmpty ∧ rest.all Char.isDigit then some (-(digitsVal rest : Int)) else none
  | cs =>
    if ¬ cs.isEmpty ∧ cs.all Char.isDigit then some (digitsVal cs) else none

/-- Row of the `services` table. -/
structure Service where
  id : Nat
  name : String
  description : Option String
  duration_minutes : Int
  price : PyFloat
  is_active : Bool
deriving DecidableEq, Repr

/-- Row of the `barbers` table. -/
structure Barber where
  id : Nat
  name : String
  specialty : Option String
  is_active : Bool
deriving DecidableEq, Repr

/-- Row of the `clients` table. -/
structure Client where
  id : Nat
  user_id : Nat
  full_name : String
  phone : String
  email : String
deriving DecidableEq, Repr

/-- Row of the `appointments` table. -/
structure Appointment where
  id : Nat
  appointment_datetime : DateTime
  status : String
  notes : String
  client_id : Nat
  service_id : Nat
  barber_id : Nat
deriving DecidableEq, Repr

/-- Row of the `users` table. -/
structure User where
  id : Nat
  username : String
  password : String
  role : String
deriving DecidableEq, Repr

/-- The database: the five tables (rows in insertion order, as returned by
unordered queries) plus autoincrement counters for the primary keys. -/
structure DB where
  services : List Service
  barbers : List Barber
  clients : List Client
  appointments : List Appointment
  users : List User
  next_service_id : Nat
  next_barber_id : Nat
  next_client_id : Nat
  next_appointment_id : Nat
  next_user_id : Nat
deriving DecidableEq, Repr

/-- Flask session state: the two keys the application uses. -/
structure Session where
  user_id : Option Nat
  role : Option String
deriving DecidableEq, Repr

/-- Python truthiness of `request.form.get(...)`: falsy when the key is
absent or the value is the empty string. -/
def falsy : Option String → Bool
  | none => true
  | some s => s == ""

/-- Coercion a raw form string undergoes when compared against an `Integer`
primary-key column (canonical decimal strings; anything else matches no row). -/
def formToNat? (s : String) : Option Nat :=
  if ¬ s.toList.isEmpty ∧ s.toList.all Char.isDigit then
    some (digitsVal s.toList)
  else none

/-- Model of `Service.query.get(key)` on a raw form string: decimal
coercion to the `Integer` primary key, then lookup. -/
def serviceGet (db : DB) (key : String) : Option Service :=
  match formToNat? key with
  | some n => db.services.find? (fun s => s.id == n)
  | none => none

/-- Model of `Barber.query.get(key)` on a raw form string. -/
def barberGet (db : DB) (key : String) : Option Barber :=
  match formToNat? key with
  | some n => db.barbers.find? (fun b => b.id == n)
  | none => none

/-- The POST form of the `/book` route. -/
structure BookForm where
  full_name : Option String
  phone : Option String
  email : Option String
  service_id : Option String
  barber_id : Option String
  date : Option String
  time : Option String
  notes : Option String
deriving Repr

/-- Validation 1 of `book_appointment`: some required field is falsy
(`full_name` and `phone` are stripped first, as in the source). -/
def bookFieldsMissing (f : BookForm) : Bool :=
  (strip (f.full_name.getD "") == "") || (strip (f.phone.getD "") == "") ||
    falsy f.service_id || falsy f.barber_id || falsy f.date || falsy f.time

/-- Validation 3 of `book_appointment`: `strptime(f"{date_str} {time_str}",
"%Y-%m-%d %H:%M")`, `None` when `ValueError` is raised. -/
def bookDT (f : BookForm) : Option DateTime :=
  parse_ymd_hm ((f.date.getD "") ++ " " ++ (f.time.getD ""))

/-- Validation 5 of `book_appointment`: `Appointment.query.filter_by(
barber_id=..., appointment_datetime=...).first()` is not `None`.  The route
filters by the raw form value, which the earlier `Barber.query.get` lookup
proved coerces to `barber.id`. -/
def slotTaken (db : DB) (bid : Nat) (dt : DateTime) : Bool :=
  (db.appointments.find? fun a =>
    a.barber_id == bid && a.appointment_datetime == dt).isSome

/-- Outcomes of a POST to `/book`. -/
inductive BookOutcome where
  | loginRedirect
  | missingFields
  | notFound
  | invalidFormat
  | pastDate
  | slotConflict
  | success
deriving DecidableEq, Repr

/-- The POST branch of `book_appointment` (src/app.py lines 114-214). -/
def book_appointment (sess : Session) (f : BookForm) (now : DateTime)
    (db : DB) : BookOutcome × DB :=
  match sess.user_id with
  | none => (.loginRedirect, db)
  | some uid =>
    if bookFieldsMissing f then (.missingFields, db)
    else
      match serviceGet db (f.service_id.getD ""), barberGet db (f.barber_id.getD "") with
      | some service, some barber =>
        match bookDT f with
        | none => (.invalidFormat, db)
        | some dt =>
          if DateTime.lt dt now then (.pastDate, db)
          else if slotTaken db barber.id dt then (.slotConflict, db)
          else
            match db.clients.find? (fun c => c.user_id == uid) with
            | some client =>
              let appt : Appointment :=
                ⟨db.next_appointment_id, dt, "pendiente", strip (f.notes.getD ""),
                  client.id, service.id, barber.id⟩
              (.success, { db with
                appointments := db.appointments ++ [appt],
                next_appointment_id := db.next_appointment_id + 1 })
            | none =>
              let client : Client :=
                ⟨db.next_client_id, uid, strip (f.full_name.getD ""),
                  strip (f.phone.getD ""), strip (f.email.getD "")⟩
              let appt : Appointment :=
                ⟨db.next_appointment_id, dt, "pendiente", strip (f.notes.getD ""),
                  client.id, service.id, barber.id⟩
              (.success, { db with
                clients := db.clients ++ [client],
                appointments := db.appointments ++ [appt],
                next_client_id := db.next_client_id + 1,
                next_appointment_id := db.next_appointment_id + 1 })
      | _, _ => (.notFound, db)

/-- Outcomes of a POST to `/register`. -/
inductive RegOutcome where
  | missingFields
  | usernameTooShort
  | passwordTooShort
  | usernameExists
  | success
deriving DecidableEq, Repr

/-- The POST branch of `register` (src/app.py lines 507-540). -/
def register (username? password? : Option String) (db : DB) :
    RegOutcome × DB :=
  let username := strip (username?.getD "")
  let password := strip (password?.getD "")
  if username == "" || password == "" then (.missingFields, db)
  else if username.length < 3 then (.usernameTooShort, db)
  else if password.length < 6 then (.passwordTooShort, db)
  else
    match db.users.find? (fun u => u.username == username) with
    | some _ => (.usernameExists, db)
    | none =>
      (.success, { db with
        users := db.users ++
          [⟨db.next_user_id, username, generate_password_hash password, "cliente"⟩],
        next_user_id := db.next_user_id + 1 })

/-- Outcomes of a POST to `/login`. -/
inductive LoginOutcome where
  | missingFields
  | authError
  | success
deriving DecidableEq, Repr

/-- The POST branch of `login` (src/app.py lines 543-565); the database is
never written, only the session. -/
def login (username? password? : Option String) (db : DB) (sess : Session) :
    LoginOutcome × Session :=
  let username := strip (username?.getD "")
  let password := strip (password?.getD "")
  if username == "" || password == "" then (.missingFields, sess)
  else
    match db.users.find? (fun u => u.username == username) with
    | none => (.authError, sess)
    | some user =>
      if check_password_hash user.password password then
        (.success, { user_id := some user.id, role := some user.role })
      else (.authError, sess)

/-- Outcomes of a POST to `/admin/services/create`.  `serverError` is the
uncaught `ValueError` raised by `int(duration)` or `float(price)`. -/
inductive SvcCreateOutcome where
  | permissionDenied
  | missingFields
  | serverError
  | success
deriving DecidableEq, Repr

/-- The POST form of `/admin/services/create`. -/
structure ServiceForm where
  name : Option String
  description : Option String
  duration : Option String
  price : Option String
deriving Repr

/-- The POST branch of `admin_service_create` (src/app.py lines 262-291).
The form fields are not stripped; only presence is validated before the
numeric conversions run. -/
def admin_service_create (sess : Session) (f : ServiceForm) (db : DB) :
    SvcCreateOutcome × DB :=
  if sess.role == some "admin" then
    if falsy f.name || falsy f.duration || falsy f.price then
      (.missingFields, db)
    else
      match pyInt? (f.duration.getD ""), pyFloat? (f.price.getD "") with
      | some n, some pr =>
        (.success, { db with
          services := db.services ++
            [⟨db.next_service_id, f.name.getD "", f.description, n, pr, true⟩],
          next_service_id := db.next_service_id + 1 })
      | _, _ => (.serverError, db)
  else (.permissionDenied, db)

/-- Outcomes of `/admin/services/delete/<id>` and `/admin/barbers/delete/<id>`. -/
inductive DeleteOutcome where
  | permissionDenied
  | notFound404
  | constraintWarning
  | success
deriving DecidableEq, Repr

/-- Route `admin_service_delete` (src/app.py lines 329-349). -/
def admin_service_delete (sess : Session) (service_id : Nat) (db : DB) :
    DeleteOutcome × DB :=
  if sess.role == some "admin" then
    match db.services.find? (fun s => s.id == service_id) with
    | none => (.notFound404, db)
    | some service =>
      if (db.appointments.find? fun a => a.service_id == service.id).isSome then
        (.constraintWarning, db)
      else
        (.success, { db with
          services := db.services.eraseP (fun s => s.id == service.id) })
  else (.permissionDenied, db)

/-- Route `delete_barber` (src/app.py lines 423-440). -/
def delete_barber (sess : Session) (barber_id : Nat) (db : DB) :
    DeleteOutcome × DB :=
  if sess.role == some "admin" then
    match db.barbers.find? (fun b => b.id == barber_id) with
    | none => (.notFound404, db)
    | some barber =>
      if (db.appointments.find? fun a => a.barber_id == barber.id).isSome then
        (.constraintWarning, db)
      else
        (.success, { db with
          barbers := db.barbers.eraseP (fun b => b.id == barber.id) })
  else (.permissionDenied, db)

/-- Outcomes of `/mis-citas/cancel/<id>`. -/
inductive CancelOutcome where
  | loginRedirect
  | noClient
  | notFound404
  | notOwner
  | pastAppointment
  | success
deriving DecidableEq, Repr

/-- Route `cancel_user_appointment` (src/app.py lines 468-501). -/
def cancel_user_appointment (sess : Session) (appointment_id : Nat)
    (now : DateTime) (db : DB) : CancelOutcome × DB :=
  match sess.user_id with
  | none => (.loginRedirect, db)
  | some uid =>
    match db.clients.find? (fun c => c.user_id == uid) with
    | none => (.noClient, db)
    | some client =>
      match db.appointments.find? (fun a => a.id == appointment_id) with
      | none => (.notFound404, db)
      | some appointment =>
        if appointment.client_id != client.id then (.notOwner, db)
        else if DateTime.lt appointment.appointment_datetime now then
          (.pastAppointment, db)
        else
          (.success, { db with
            appointments := db.appointments.map fun a =>
              if a.id == appointment_id then { a with status := "cancelada" }
              else a })

/-! ### Concrete fixtures used to instantiate the theorems below -/

/-- An active service (cf. the seed data). -/
def svcA : Service := ⟨1, "Corte clásico", some "Corte tradicional", 30, ⟨10, 0⟩, true⟩

/-- A deactivated service. -/
def svcB : Service := ⟨2, "Afeitado premium", none, 40, ⟨15, 0⟩, false⟩

/-- An active barber. -/
def barA : Barber := ⟨1, "Carlos", some "Cortes modernos", true⟩

/-- A deactivated barber. -/
def barB : Barber := ⟨2, "Luis", none, false⟩

/-- The client profile of the user with id 7. -/
def cliA : Client := ⟨1, 7, "Alice", "555", "a@b.c"⟩

/-- The slot occupied by the cancelled appointment `apptA`. -/
def dtSlot : DateTime := ⟨2030, 1, 2, 10, 0, 0⟩

/-- A cancelled appointment of client 1 with barber 1 at `dtSlot`. -/
def apptA : Appointment := ⟨1, dtSlot, "cancelada", "", 1, 1, 1⟩

/-- The seeded admin account. -/
def userA : User := ⟨1, "admin", generate_password_hash "1234", "admin"⟩

/-- A small populated database. -/
def dbA : DB := ⟨[svcA, svcB], [barA, barB], [cliA], [apptA], [userA], 3, 3, 2, 2, 2⟩

/-- A current moment before every appointment in `dbA`. -/
def nowA : DateTime := ⟨2026, 1, 1, 0, 0, 0⟩

/-- A current moment after every appointment in `dbA`. -/
def nowLate : DateTime := ⟨2031, 1, 1, 0, 0, 0⟩

/-- Session of the logged-in client user 7. -/
def sessA : Session := ⟨some 7, some "cliente"⟩

/-- Session of the logged-in admin. -/
def sessAdmin : Session := ⟨some 1, some "admin"⟩

/-- A booking form colliding with `apptA` (barber 1 at `dtSlot`). -/
def formConflict : BookForm :=
  ⟨some "Alice", some "555", none, some "1", some "1", some "2030-01-02", some "10:00", none⟩

/-- A booking form for a free slot with the active service and barber. -/
def formOK : BookForm :=
  ⟨some "Alicia", some "666", some "x@y.z", some "1", some "1", some "2030-01-02",
    some "11:00", some "n"⟩

/-- A booking form for a free slot with the deactivated service and barber. -/
def formInactive : BookForm :=
  ⟨some "Alice", some "555", none, some "2", some "2", some "2030-01-02", some "12:00", none⟩

/-! ### Claims -/

/-- C1: on a POST booking submission by a logged-in user, the five
validations run in order with first-failure-wins semantics — (1) required
fields, (2) service and barber resolve, (3) the datetime parses,
(4) the datetime is not strictly in the past, (5) the (barber, datetime)
slot is free — and every failure redirects leaving the database (hence its
`clients` and `appointments` tables) unchanged. -/
theorem booking_validation_order (sess : Session) (uid : Nat) (f : BookForm)
    (now : DateTime) (db : DB) (hlog : sess.user_id = some uid) :
    (bookFieldsMissing f = true →
      book_appointment sess f now db = (.missingFields, db)) ∧
    (bookFieldsMissing f = false →
      (serviceGet db (f.service_id.getD "") = none ∨
        barberGet db (f.barber_id.getD "") = none) →
      book_appointment sess f now db = (.notFound, db)) ∧
    (∀ s b, bookFieldsMissing f = false →
      serviceGet db (f.service_id.getD "") = some s →
      barberGet db (f.barber_id.getD "") = some b →
      bookDT f = none →
      book_appointment sess f now db = (.invalidFormat, db)) ∧
    (∀ s b dt, bookFieldsMissing f = false →
      serviceGet db (f.service_id.getD "") = some s →
      barberGet db (f.barber_id.getD "") = some b →
      bookDT f = some dt → DateTime.lt dt now = true →
      book_appointment sess f now db = (.pastDate, db)) ∧
    (∀ s b dt, bookFieldsMissing f = false →
      serviceGet db (f.service_id.getD "") = some s →
      barberGet db (f.barber_id.getD "") = some b →
      bookDT f = some dt → DateTime.lt dt now = false →
      slotTaken db b.id dt = true →
      book_appointment sess f now db = (.slotConflict, db)) := by
  refine ⟨?_, ?_, ?_, ?_, ?_⟩
  · intro hf
    simp [book_appointment, hlog, hf]
  · intro hf hsb
    rcases hsb with hs | hb
    · cases hb' : barberGet db (f.barber_id.getD "") <;>
        simp [book_appointment, hlog, hf, hs, hb']
    · cases hs' : serviceGet db (f.service_id.getD "") <;>
        simp [book_appointment, hlog, hf, hb, hs']
  · intro s b hf hs hb hdt
    simp [book_appointment, hlog, hf, hs, hb, hdt]
  · intro s b dt hf hs hb hdt hlt
    simp [book_appointment, hlog, hf, hs, hb, hdt, hlt]
  · intro s b dt hf hs hb hdt hlt htaken
    simp [book_appointment, hlog, hf, hs, hb, hdt, hlt, htaken]

/-- Witness for C1: the fifth validation fires on `formConflict`. -/
theorem booking_validation_order_witness :
    book_appointment sessA formConflict nowA dbA = (.slotConflict, dbA) :=
  (booking_validation_order sessA 7 formConflict nowA dbA rfl).2.2.2.2
    svcA barA dtSlot (by decide) (by decide) (by decide) (by decide)
    (by decide) (by decide)

/-- C2: the slot-conflict check compares only the (barber, datetime) pair of
existing appointments, never their status: any appointment with the same
barber id and datetime — its status is universally quantified here, and may
in particular be "cancelada" — makes the booking fail with the slot-conflict
redirect, so a cancelled appointment's slot is never reusable. -/
theorem booking_conflict_ignores_status (sess : Session) (uid : Nat)
    (f : BookForm) (now : DateTime) (db : DB) (s : Service) (b : Barber)
    (dt : DateTime) (a : Appointment)
    (hlog : sess.user_id = some uid)
    (hf : bookFieldsMissing f = false)
    (hs : serviceGet db (f.service_id.getD "") = some s)
    (hb : barberGet db (f.barber_id.getD "") = some b)
    (hdt : bookDT f = some dt)
    (hlt : DateTime.lt dt now = false)
    (ha : a ∈ db.appointments)
    (hab : a.barber_id = b.id)
    (hadt : a.appointment_datetime = dt) :
    book_appointment sess f now db = (.slotConflict, db) := by
  have htaken : slotTaken db b.id dt = true := by
    rw [slotTaken, List.find?_isSome]
    exact ⟨a, ha, by simp [hab, hadt]⟩
  simp [book_appointment, hlog, hf, hs, hb, hdt, hlt, htaken]

/-- Witness for C2: the conflicting appointment `apptA` has status
"cancelada", yet the booking is rejected. -/
theorem booking_conflict_ignores_status_witness :
    book_appointment sessA formConflict nowA dbA = (.slotConflict, dbA) ∧
    apptA.status = "cancelada" :=
  ⟨booking_conflict_ignores_status sessA 7 formConflict nowA dbA svcA barA
      dtSlot apptA rfl (by decide) (by decide) (by decide) (by decide)
      (by decide) (by decide) (by decide) (by decide),
    rfl⟩

/-- C3: once validations 1-3 have passed, the booking is rejected with the
past-date redirect exactly when the parsed datetime is strictly before the
current moment; a datetime equal to or after `now` never produces the
past-date outcome. -/
theorem booking_past_date_strict (sess : Session) (uid : Nat) (f : BookForm)
    (now : DateTime) (db : DB) (s : Service) (b : Barber) (dt : DateTime)
    (hlog : sess.user_id = some uid)
    (hf : bookFieldsMissing f = false)
    (hs : serviceGet db (f.service_id.getD "") = some s)
    (hb : barberGet db (f.barber_id.getD "") = some b)
    (hdt : bookDT f = some dt) :
    (DateTime.lt dt now = true →
      book_appointment sess f now db = (.pastDate, db)) ∧
    (DateTime.lt dt now = false →
      (book_appointment sess f now db).1 ≠ .pastDate) := by
  constructor
  · intro hlt
    simp [book_appointment, hlog, hf, hs, hb, hdt, hlt]
  · intro hlt
    by_cases htaken : slotTaken db b.id dt
    · simp [book_appointment, hlog, hf, hs, hb, hdt, hlt, htaken]
    · cases hc : db.clients.find? (fun c => c.user_id == uid) <;>
        simp [book_appointment, hlog, hf, hs, hb, hdt, hlt, htaken, hc]

/-- Witness for C3: with `now` after the requested slot, the booking is
rejected as in the past. -/
theorem booking_past_date_strict_witness :
    book_appointment sessA formConflict nowLate dbA = (.pastDate, dbA) :=
  (booking_past_date_strict sessA 7 formConflict nowLate dbA svcA barA dtSlot
      rfl (by decide) (by decide) (by decide) (by decide)).1 (by decide)

/-- C4: on a successful booking, when the session user already has a Client
profile the `clients` table is left exactly as it was (no field of the
existing record is updated from the form) and the new Appointment is linked
to that existing Client with status "pendiente"; a Client is created from
the submitted (stripped) form values only when none exists for the user. -/
theorem booking_client_frame (sess : Session) (uid : Nat) (f : BookForm)
    (now : DateTime) (db : DB) (s : Service) (b : Barber) (dt : DateTime)
    (hlog : sess.user_id = some uid)
    (hf : bookFieldsMissing f = false)
    (hs : serviceGet db (f.service_id.getD "") = some s)
    (hb : barberGet db (f.barber_id.getD "") = some b)
    (hdt : bookDT f = some dt)
    (hlt : DateTime.lt dt now = false)
    (htaken : slotTaken db b.id dt = false) :
    (∀ c, db.clients.find? (fun c => c.user_id == uid) = some c →
      book_appointment sess f now db =
        (.success, { db with
          appointments := db.appointments ++
            [⟨db.next_appointment_id, dt, "pendiente", strip (f.notes.getD ""),
              c.id, s.id, b.id⟩],
          next_appointment_id := db.next_appointment_id + 1 })) ∧
    (db.clients.find? (fun c => c.user_id == uid) = none →
      book_appointment sess f now db =
        (.success, { db with
          clients := db.clients ++
            [⟨db.next_client_id, uid, strip (f.full_name.getD ""),
              strip (f.phone.getD ""), strip (f.email.getD "")⟩],
          appointments := db.appointments ++
            [⟨db.next_appointment_id, dt, "pendiente", strip (f.notes.getD ""),
              db.next_client_id, s.id, b.id⟩],
          next_client_id := db.next_client_id + 1,
          next_appointment_id := db.next_appointment_id + 1 })) := by
  constructor
  · intro c hc
    simp [book_appointment, hlog, hf, hs, hb, hdt, hlt, htaken, hc]
  · intro hc
    simp [book_appointment, hlog, hf, hs, hb, hdt, hlt, htaken, hc]

/-- Witness for C4: user 7 already owns `cliA`; booking `formOK` (whose name,
phone and email differ from `cliA`'s) leaves the `clients` table unchanged
and appends a "pendiente" appointment linked to `cliA`. -/
theorem booking_client_frame_witness :
    book_appointment sessA formOK nowA dbA =
      (.success, { dbA with
        appointments := dbA.appointments ++
          [⟨2, ⟨2030, 1, 2, 11, 0, 0⟩, "pendiente", "n", 1, 1, 1⟩],
        next_appointment_id := 3 }) :=
  (booking_client_frame sessA 7 formOK nowA dbA svcA barA ⟨2030, 1, 2, 11, 0, 0⟩
      rfl (by decide) (by decide) (by decide) (by decide) (by decide)
      (by decide)).1 cliA (by decide)

/-- C10: validation step 2 checks only that the service id and barber id
resolve to existing rows — the `is_active` flag plays no role — so a
submission naming a deactivated service or barber passes step 2, and when
the remaining validations pass an Appointment referencing the inactive
records is created (shown here for the existing-client and the
created-client case alike). -/
theorem booking_allows_inactive (sess : Session) (uid : Nat) (f : BookForm)
    (now : DateTime) (db : DB) (s : Service) (b : Barber) (dt : DateTime)
    (hlog : sess.user_id = some uid)
    (hf : bookFieldsMissing f = false)
    (hs : serviceGet db (f.service_id.getD "") = some s)
    (hb : barberGet db (f.barber_id.getD "") = some b)
    (hinactive : s.is_active = false ∨ b.is_active = false)
    (hdt : bookDT f = some dt)
    (hlt : DateTime.lt dt now = false)
    (htaken : slotTaken db b.id dt = false) :
    (book_appointment sess f now db).1 = .success ∧
    (book_appointment sess f now db).2.appointments =
      db.appointments ++
        [⟨db.next_appointment_id, dt, "pendiente", strip (f.notes.getD ""),
          ((db.clients.find? (fun c => c.user_id == uid)).map Client.id).getD
            db.next_client_id,
          s.id, b.id⟩] := by
  cases hc : db.clients.find? (fun c => c.user_id == uid) <;>
    simp [book_appointment, hlog, hf, hs, hb, hdt, hlt, htaken, hc]

/-- Witness for C10: `formInactive` names the deactivated `svcB` and `barB`;
the booking still succeeds and the created appointment references them. -/
theorem booking_allows_inactive_witness :
    (book_appointment sessA formInactive nowA dbA).1 = .success ∧
    (book_appointment sessA formInactive nowA dbA).2.appointments =
      dbA.appointments ++ [⟨2, ⟨2030, 1, 2, 12, 0, 0⟩, "pendiente", "", 1, 2, 2⟩] :=
  booking_allows_inactive sessA 7 formInactive nowA dbA svcB barB
    ⟨2030, 1, 2, 12, 0, 0⟩ rfl (by decide) (by decide) (by decide)
    (Or.inl (by decide)) (by decide) (by decide) (by decide)

/-- C5: for any username whose stripped form has length at least 3 and is
not already taken and any password whose stripped form has length at least
6, registration succeeds, storing a user with role "cliente" and a hashed
password, and a subsequent login with the same username and password
succeeds, establishing a session carrying that user's id and role. -/
theorem register_then_login_succeeds (db : DB) (u p : String) (sess : Session)
    (hu : 3 ≤ (strip u).length) (hp : 6 ≤ (strip p).length)
    (habs : db.users.find? (fun usr => usr.username == strip u) = none) :
    register (some u) (some p) db =
      (.success, { db with
        users := db.users ++
          [⟨db.next_user_id, strip u, generate_password_hash (strip p), "cliente"⟩],
        next_user_id := db.next_user_id + 1 }) ∧
    login (some u) (some p)
        { db with
          users := db.users ++
            [⟨db.next_user_id, strip u, generate_password_hash (strip p), "cliente"⟩],
          next_user_id := db.next_user_id + 1 } sess =
      (.success, ⟨some db.next_user_id, some "cliente"⟩) := by
  have hu0 : (strip u == "") = false := by
    apply beq_eq_false_iff_ne.mpr
    intro h
    rw [h] at hu
    simp at hu
  have hp0 : (strip p == "") = false := by
    apply beq_eq_false_iff_ne.mpr
    intro h
    rw [h] at hp
    simp at hp
  have hu3 : ¬ (strip u).length < 3 := Nat.not_lt.mpr hu
  have hp6 : ¬ (strip p).length < 6 := Nat.not_lt.mpr hp
  constructor
  · simp [register, hu0, hp0, hu3, hp6, habs]
  · simp [login, hu0, hp0, List.find?_append, habs, check_password_hash,
      generate_password_hash]

/-- Witness for C5: registering "alice" / "secret1" in `dbA` and then
logging in with the same credentials yields a session for the new user. -/
theorem register_then_login_succeeds_witness :
    register (some "alice") (some "secret1") dbA =
      (.success, { dbA with
        users := dbA.users ++
          [⟨2, "alice", generate_password_hash "secret1", "cliente"⟩],
        next_user_id := 3 }) ∧
    login (some "alice") (some "secret1")
        { dbA with
          users := dbA.users ++
            [⟨2, "alice", generate_password_hash "secret1", "cliente"⟩],
          next_user_id := 3 } ⟨none, none⟩ =
      (.success, ⟨some 2, some "cliente"⟩) :=
  register_then_login_succeeds dbA "alice" "secret1" ⟨none, none⟩
    (by decide) (by decide) (by decide)

/-- C6: whenever no stored user matches the submitted username, or the
matching user's stored hash does not check against the submitted password,
login never establishes a session — the session state is returned unchanged
and the outcome is not success — and as soon as both submitted fields are
nonempty the failure is the credentials error. -/
theorem login_failure_no_session (u p : String) (db : DB) (sess : Session)
    (hbad : db.users.find? (fun usr => usr.username == strip u) = none ∨
      ∃ usr, db.users.find? (fun usr => usr.username == strip u) = some usr ∧
        check_password_hash usr.password (strip p) = false) :
    (login (some u) (some p) db sess).2 = sess ∧
    (login (some u) (some p) db sess).1 ≠ .success ∧
    ((strip u == "") = false → (strip p == "") = false →
      (login (some u) (some p) db sess).1 = .authError) := by
  cases hu0 : (strip u == "") with
  | true => simp [login, hu0]
  | false =>
    cases hp0 : (strip p == "") with
    | true => simp [login, hu0, hp0]
    | false =>
      rcases hbad with h | ⟨usr, hfind, hchk⟩
      · simp [login, hu0, hp0, h]
      · simp [login, hu0, hp0, hfind, hchk]

/-- Witness for C6: a wrong password for the stored "admin" account fails
with the credentials error and leaves an empty session empty. -/
theorem login_failure_no_session_witness :
    (login (some "admin") (some "wrongpw") dbA ⟨none, none⟩).2 =
      (⟨none, none⟩ : Session) ∧
    (login (some "admin") (some "wrongpw") dbA ⟨none, none⟩).1 = .authError := by
  have h := login_failure_no_session "admin" "wrongpw" dbA ⟨none, none⟩
    (Or.inr ⟨userA, by decide, by decide⟩)
  exact ⟨h.1, h.2.2 (by decide) (by decide)⟩

/-- Counterexample for C7: the claim says a non-numeric duration fails with
a non-fatal validation redirect, but the handler only checks presence; on
`duration = "abc"` the `int()` conversion raises an uncaught `ValueError`
(a server error), not a validation redirect. -/
theorem service_create_nonnumeric_counterexample :
    admin_service_create sessAdmin ⟨some "Corte", none, some "abc", some "10"⟩ dbA
      = (.serverError, dbA) ∧
    SvcCreateOutcome.serverError ≠ SvcCreateOutcome.missingFields := by
  decide

/-- C7 (amended): the admin Service-create handler validates only presence
of name, duration and price, failing with the validation redirect when any
is absent or empty; when all are present but the duration is not
int-convertible or the price is not float-convertible, the handler raises
an uncaught conversion error (server error) and persists nothing; on
success a Service is persisted with `is_active = true`. -/
theorem service_create_validation (sess : Session) (f : ServiceForm) (db : DB)
    (hadmin : sess.role = some "admin") :
    ((falsy f.name || falsy f.duration || falsy f.price) = true →
      admin_service_create sess f db = (.missingFields, db)) ∧
    ((falsy f.name || falsy f.duration || falsy f.price) = false →
      (pyInt? (f.duration.getD "") = none ∨ pyFloat? (f.price.getD "") = none) →
      admin_service_create sess f db = (.serverError, db)) ∧
    (∀ n pr, (falsy f.name || falsy f.duration || falsy f.price) = false →
      pyInt? (f.duration.getD "") = some n →
      pyFloat? (f.price.getD "") = some pr →
      admin_service_create sess f db =
        (.success, { db with
          services := db.services ++
            [⟨db.next_service_id, f.name.getD "", f.description, n, pr, true⟩],
          next_service_id := db.next_service_id + 1 })) := by
  refine ⟨?_, ?_, ?_⟩
  · intro hmiss
    simp [admin_service_create, hadmin, hmiss]
  · intro hmiss hbad
    rcases hbad with h | h
    · cases h2 : pyFloat? (f.price.getD "") <;>
        simp [admin_service_create, hadmin, hmiss, h, h2]
    · cases h1 : pyInt? (f.duration.getD "") <;>
        simp [admin_service_create, hadmin, hmiss, h, h1]
  · intro n pr hmiss h1 h2
    simp [admin_service_create, hadmin, hmiss, h1, h2]

/-- Witness for C7 (amended): a fully numeric submission persists an active
service. -/
theorem service_create_validation_witness :
    admin_service_create sessAdmin ⟨some "Masaje", some "desc", some "30", some "10.5"⟩ dbA
      = (.success, { dbA with
          services := dbA.services ++ [⟨3, "Masaje", some "desc", 30, ⟨105, 1⟩, true⟩],
          next_service_id := 4 }) :=
  (service_create_validation sessAdmin
      ⟨some "Masaje", some "desc", some "30", some "10.5"⟩ dbA rfl).2.2
    30 ⟨105, 1⟩ (by decide) (by decide) (by decide)

/-- C8: a client cancellation succeeds — setting the appointment's status to
"cancelada" — exactly when the requester is authenticated, owns a Client
profile whose id equals the appointment's `client_id`, and the appointment's
datetime is not strictly before now; an unauthenticated request, a request
for someone else's appointment, or one whose datetime is strictly in the
past is rejected with the database (hence the appointment) unchanged. -/
theorem cancel_appointment_spec (sess : Session) (aid : Nat) (now : DateTime)
    (db : DB) :
    (sess.user_id = none →
      cancel_user_appointment sess aid now db = (.loginRedirect, db)) ∧
    (∀ uid, sess.user_id = some uid →
      db.clients.find? (fun c => c.user_id == uid) = none →
      cancel_user_appointment sess aid now db = (.noClient, db)) ∧
    (∀ uid c, sess.user_id = some uid →
      db.clients.find? (fun c => c.user_id == uid) = some c →
      db.appointments.find? (fun a => a.id == aid) = none →
      cancel_user_appointment sess aid now db = (.notFound404, db)) ∧
    (∀ uid c a, sess.user_id = some uid →
      db.clients.find? (fun c => c.user_id == uid) = some c →
      db.appointments.find? (fun a => a.id == aid) = some a →
      (a.client_id != c.id) = true →
      cancel_user_appointment sess aid now db = (.notOwner, db)) ∧
    (∀ uid c a, sess.user_id = some uid →
      db.clients.find? (fun c => c.user_id == uid) = some c →
      db.appointments.find? (fun a => a.id == aid) = some a →
      (a.client_id != c.id) = false →
      DateTime.lt a.appointment_datetime now = true →
      cancel_user_appointment sess aid now db = (.pastAppointment, db)) ∧
    (∀ uid c a, sess.user_id = some uid →
      db.clients.find? (fun c => c.user_id == uid) = some c →
      db.appointments.find? (fun a => a.id == aid) = some a →
      (a.client_id != c.id) = false →
      DateTime.lt a.appointment_datetime now = false →
      cancel_user_appointment sess aid now db =
        (.success, { db with
          appointments := db.appointments.map fun x =>
            if x.id == aid then { x with status := "cancelada" } else x })) := by
  refine ⟨?_, ?_, ?_, ?_, ?_, ?_⟩
  · intro hnone
    simp [cancel_user_appointment, hnone]
  · intro uid hlog hc
    simp [cancel_user_appointment, hlog, hc]
  · intro uid c hlog hc ha
    simp [cancel_user_appointment, hlog, hc, ha]
  · intro uid c a hlog hc ha hown
    simp [cancel_user_appointment, hlog, hc, ha, hown]
  · intro uid c a hlog hc ha hown hlt
    simp [cancel_user_appointment, hlog, hc, ha, hown, hlt]
  · intro uid c a hlog hc ha hown hlt
    simp [cancel_user_appointment, hlog, hc, ha, hown, hlt]

/-- Witness for C8: user 7 cancels their own future appointment 1; its
status is set to "cancelada". -/
theorem cancel_appointment_spec_witness :
    cancel_user_appointment sessA 1 nowA dbA =
      (.success, { dbA with
        appointments := dbA.appointments.map fun x =>
          if x.id == 1 then { x with status := "cancelada" } else x }) :=
  (cancel_appointment_spec sessA 1 nowA dbA).2.2.2.2.2 7 cliA apptA rfl
    (by decide) (by decide) (by decide) (by decide)

/-- C9: an admin delete of a Service or Barber is rejected with a warning —
and the database left unchanged — when at least one Appointment references
the record, and removes the record when no Appointment references it. -/
theorem delete_requires_no_references (sess : Session) (sid bid : Nat)
    (db : DB) (hadmin : sess.role = some "admin") :
    (∀ s, db.services.find? (fun x => x.id == sid) = some s →
      (∃ a ∈ db.appointments, a.service_id = s.id) →
      admin_service_delete sess sid db = (.constraintWarning, db)) ∧
    (∀ s, db.services.find? (fun x => x.id == sid) = some s →
      (∀ a ∈ db.appointments, a.service_id ≠ s.id) →
      admin_service_delete sess sid db =
        (.success, { db with
          services := db.services.eraseP (fun x => x.id == s.id) })) ∧
    (∀ b, db.barbers.find? (fun x => x.id == bid) = some b →
      (∃ a ∈ db.appointments, a.barber_id = b.id) →
      delete_barber sess bid db = (.constraintWarning, db)) ∧
    (∀ b, db.barbers.find? (fun x => x.id == bid) = some b →
      (∀ a ∈ db.appointments, a.barber_id ≠ b.id) →
      delete_barber sess bid db =
        (.success, { db with
          barbers := db.barbers.eraseP (fun x => x.id == b.id) })) := by
  refine ⟨?_, ?_, ?_, ?_⟩
  · rintro s hs ⟨a, ha, haeq⟩
    have hfound : (db.appointments.find? fun a => a.service_id == s.id).isSome = true := by
      rw [List.find?_isSome]
      exact ⟨a, ha, by simp [haeq]⟩
    simp [admin_service_delete, hadmin, hs, hfound]
  · intro s hs hnone
    have hfree : db.appointments.find? (fun a => a.service_id == s.id) = none := by
      rw [List.find?_eq_none]
      intro a ha
      simp [hnone a ha]
    simp [admin_service_delete, hadmin, hs, hfree]
  · rintro b hb ⟨a, ha, haeq⟩
    have hfound : (db.appointments.find? fun a => a.barber_id == b.id).isSome = true := by
      rw [List.find?_isSome]
      exact ⟨a, ha, by simp [haeq]⟩
    simp [delete_barber, hadmin, hb, hfound]
  · intro b hb hnone
    have hfree : db.appointments.find? (fun a => a.barber_id == b.id) = none := by
      rw [List.find?_eq_none]
      intro a ha
      simp [hnone a ha]
    simp [delete_barber, hadmin, hb, hfree]

/-- Witness for C9: barber 1 is referenced by appointment 1, so its delete
is rejected with `dbA` unchanged; service 2 has no referencing appointment,
so its delete removes the row. -/
theorem delete_requires_no_references_witness :
    delete_barber sessAdmin 1 dbA = (.constraintWarning, dbA) ∧
    admin_service_delete sessAdmin 2 dbA =
      (.success, { dbA with services := [svcA] }) :=
  ⟨(delete_requires_no_references sessAdmin 2 1 dbA rfl).2.2.1 barA
      (by decide) (by decide),
    (delete_requires_no_references sessAdmin 2 1 dbA rfl).2.1 svcB
      (by decide) (by decide)⟩
